import Mathlib

/-!
Shallow embedding of the Doc_Collab_Frontend collaboration client.

Sources:
* `src/unnamed/part_000` — the socket module (`initSocket`, `getSocket`,
  `disconnectSocket`) holding a module-level `socket` variable.
* `src/unnamed/part_001` — the `DocumentEditor` component: socket event
  handlers (`handleDocumentUpdate`, `handleActiveUsers`, `handleUserJoined`,
  `handleUserLeft`), the debounced save logic (`handleContentChange`,
  `handleSave`) and the initial document fetch (`fetchDocument`).

State that React keeps in hooks is made explicit; the async save flow is
embedded as a small-step event machine whose events are the points where the
JavaScript event loop can interleave (timer fire, promise resolution).
-/

namespace DocCollab

/-! ### Socket module (src/unnamed/part_000)

The module holds `let socket: Socket | null = null`.  A `Socket` value is
identified by the auth token it was created with and a creation serial
number, so that "no second connection is created" is observable. -/

structure Socket where
  token : String
  sid : Nat
deriving DecidableEq, Repr

structure SocketModule where
  socket : Option Socket
  nextSid : Nat
deriving DecidableEq, Repr

/-- `initSocket` (part_000 lines 7-16): creates a connection only when the
module-level handle is `null`; otherwise returns the existing handle. -/
def initSocket (token : String) (m : SocketModule) : Socket × SocketModule :=
  match m.socket with
  | none =>
      let s : Socket := { token := token, sid := m.nextSid }
      (s, { socket := some s, nextSid := m.nextSid + 1 })
  | some s => (s, m)

/-- `getSocket` (part_000 lines 18-20). -/
def getSocket (m : SocketModule) : Option Socket :=
  m.socket

/-- `disconnectSocket` (part_000 lines 22-27): if a handle exists, disconnect
it and clear the variable; otherwise do nothing. -/
def disconnectSocket (m : SocketModule) : SocketModule :=
  match m.socket with
  | none => m
  | some _ => { m with socket := none }

/-! ### Presence roster handlers (src/unnamed/part_001)

`activeUsers : string[]` React state; the handlers below are the socket
event callbacks registered by the editor. -/

/-- `handleActiveUsers` (part_001): `setActiveUsers(users)` — the snapshot
fully replaces the roster. -/
def handleActiveUsers (users : List String) (_prev : List String) : List String :=
  users

/-- `handleUserJoined` (part_001): `setActiveUsers((prev) => [...prev, data.userId])`. -/
def handleUserJoined (userId : String) (prev : List String) : List String :=
  prev ++ [userId]

/-- `handleUserLeft` (part_001): `setActiveUsers((prev) => prev.filter((u) => u !== data.userId))`. -/
def handleUserLeft (userId : String) (prev : List String) : List String :=
  prev.filter (fun u => u ≠ userId)

/-! ### Remote document updates (src/unnamed/part_001) -/

structure UpdateData where
  userId : Nat
  content : String
deriving DecidableEq, Repr

/-- `handleDocumentUpdate` (part_001):
`if (data.userId !== user?.id) { setContent(data.content) }`.
`user` is the auth context's current user (`none` when logged out, in which
case `user?.id` is `undefined` and the comparison is always a mismatch). -/
def handleDocumentUpdate (user : Option Nat) (data : UpdateData) (content : String) : String :=
  if some data.userId ≠ user then data.content else content

/-! ### Debounced save machine (src/unnamed/part_001, `handleContentChange`
and `handleSave`)

`handleContentChange` (lines after the handlers) sets `content`, emits a
`document-change`, clears any pending timeout and arms a fresh 2-second
timeout whose closure captures `newContent`.  `handleSave(c)` sets
`saving = true` and `await`s `api.put`; on success it emits `save-document`,
sets `lastSaved` and `await`s a re-fetch (`api.get`) that replaces
`document`; on failure it alerts; `finally` it sets `saving = false`.

Each `await` is a point where the event loop may run other work, so the save
flow is embedded as an event machine.  `SaveEv` lists the events: a local
edit, the armed timeout firing, and the resolution (success or failure) of
the oldest outstanding `api.put`. -/

structure SaveState where
  content : String
  /-- `saveTimeoutRef`: the armed timeout, carrying the `newContent` its
  closure captured. -/
  timer : Option String
  /-- bodies of the `api.put` calls currently awaited, oldest first. -/
  inFlight : List String
  saving : Bool
  /-- bodies broadcast so far via `socket.emit('save-document', ...)`. -/
  emittedSaves : List String
  /-- number of post-save re-fetches (`api.get`) performed. -/
  refetches : Nat
  /-- number of `alert(...)` calls surfaced to the user. -/
  alerts : Nat
deriving DecidableEq, Repr

inductive SaveEv where
  /-- `handleContentChange` with new textarea value `s`. -/
  | edit (s : String)
  /-- the armed 2-second timeout fires and calls `handleSave` with the
  captured body: `setSaving(true)` and the `api.put` goes out. -/
  | fire
  /-- the oldest outstanding `api.put` resolves: `socket.emit('save-document')`,
  `setLastSaved`, the re-fetch, and `finally setSaving(false)`. -/
  | putOk
  /-- the oldest outstanding `api.put` rejects: the `catch` alerts and
  `finally` sets `saving = false`; nothing else happens. -/
  | putErr
deriving DecidableEq, Repr

/-- One step of the save machine; `none` means the event is not enabled in
this state (no timer armed, or no request in flight). -/
def saveStep (st : SaveState) : SaveEv → Option SaveState
  | .edit s => some { st with content := s, timer := some s }
  | .fire =>
      match st.timer with
      | none => none
      | some s =>
          some { st with timer := none, saving := true, inFlight := st.inFlight ++ [s] }
  | .putOk =>
      match st.inFlight with
      | [] => none
      | s :: rest =>
          some { st with inFlight := rest, emittedSaves := st.emittedSaves ++ [s],
                         refetches := st.refetches + 1, saving := false }
  | .putErr =>
      match st.inFlight with
      | [] => none
      | _ :: rest =>
          some { st with inFlight := rest, alerts := st.alerts + 1, saving := false }

/-- Run a sequence of events from a state; `none` if any event is not enabled. -/
def saveRun (st : SaveState) : List SaveEv → Option SaveState
  | [] => some st
  | e :: es => (saveStep st e).bind (fun st' => saveRun st' es)

/-- The editor's initial save-related state on mount. -/
def saveInit : SaveState :=
  { content := "", timer := none, inFlight := [], saving := false,
    emittedSaves := [], refetches := 0, alerts := 0 }

/-! ### Initial document fetch (src/unnamed/part_001, `fetchDocument`) -/

structure DocData where
  title : String
  content : String
deriving DecidableEq, Repr

structure FetchState where
  document : Option DocData
  content : String
  loading : Bool
  /-- messages surfaced via `alert(...)`. -/
  alerts : List String
  /-- route passed to `navigate(...)`, if any. -/
  navTarget : Option String
deriving DecidableEq, Repr

/-- `fetchDocument` (part_001): on success stores the document, mirrors its
content and clears `loading`; on failure alerts the error message and
navigates to `/documents`. -/
def fetchDocument (res : Except String DocData) (st : FetchState) : FetchState :=
  match res with
  | .ok d => { st with document := some d, content := d.content, loading := false }
  | .error msg => { st with alerts := st.alerts ++ [msg], navTarget := some "/documents" }

/-! ### Session setup and cleanup (src/unnamed/part_001, the `useEffect`)

On mount the editor emits `join-document` and registers six socket event
handlers; the effect's cleanup emits `leave-document` and unregisters the
same six handlers with `socket.off`.  The cleanup never calls
`socket.disconnect()` or `disconnectSocket`.  Handlers are identified by
(event name, listener id); the six listeners of the editor get ids 0-5. -/

structure ChannelState where
  /-- registered listeners: (event name, listener id), registration order. -/
  handlers : List (String × Nat)
  /-- events emitted so far: (event name, payload). -/
  emitted : List (String × String)
  /-- whether the underlying transport connection is up. -/
  connected : Bool
deriving DecidableEq, Repr

def socketEmit (ev payload : String) (c : ChannelState) : ChannelState :=
  { c with emitted := c.emitted ++ [(ev, payload)] }

def socketOn (ev : String) (hid : Nat) (c : ChannelState) : ChannelState :=
  { c with handlers := c.handlers ++ [(ev, hid)] }

def socketOff (ev : String) (hid : Nat) (c : ChannelState) : ChannelState :=
  { c with handlers := c.handlers.filter (fun q => q ≠ (ev, hid)) }

/-- The six listeners the editor registers (part_001 `useEffect`). -/
def sessionHandlers : List (String × Nat) :=
  [("document-update", 0), ("active-users", 1), ("user-joined", 2),
   ("user-left", 3), ("document-saved", 4), ("error", 5)]

/-- The mount effect: `socket.emit('join-document', id)` then the six
`socket.on` registrations. -/
def sessionSetup (docId : String) (c : ChannelState) : ChannelState :=
  sessionHandlers.foldl (fun acc p => socketOn p.1 p.2 acc)
    (socketEmit "join-document" docId c)

/-- The effect cleanup: `socket.emit('leave-document', id)` then the six
`socket.off` calls.  It never touches the connection itself. -/
def sessionCleanup (docId : String) (c : ChannelState) : ChannelState :=
  sessionHandlers.foldl (fun acc p => socketOff p.1 p.2 acc)
    (socketEmit "leave-document" docId c)

end DocCollab

namespace DocCollab

/-! ### Theorems for the socket module claims -/

/-- Claim C7: `connect` is idempotent — calling `initSocket` while a handle
exists returns that same handle and leaves the module state (including the
creation counter) unchanged; `disconnectSocket` with no active handle is a
no-op; after `disconnectSocket` the handle is always cleared. -/
theorem initSocket_idem_disconnect_safe (m : SocketModule) (s : Socket) (t : String)
    (hm : m.socket = some s) :
    initSocket t m = (s, m) ∧
    (∀ m' : SocketModule, m'.socket = none → disconnectSocket m' = m') ∧
    (∀ m' : SocketModule, (disconnectSocket m').socket = none) := by
  refine ⟨?_, ?_, ?_⟩
  · simp [initSocket, hm]
  · intro m' h
    simp [disconnectSocket, h]
  · intro m'
    cases h : m'.socket with
    | none => simp [disconnectSocket, h]
    | some s' => simp [disconnectSocket, h]

/-- Witness for C7 at a concrete module state holding a live handle. -/
theorem initSocket_idem_disconnect_safe_witness :
    initSocket "t2" { socket := some { token := "t1", sid := 0 }, nextSid := 1 }
      = ({ token := "t1", sid := 0 }, { socket := some { token := "t1", sid := 0 }, nextSid := 1 }) ∧
    (∀ m' : SocketModule, m'.socket = none → disconnectSocket m' = m') ∧
    (∀ m' : SocketModule, (disconnectSocket m').socket = none) :=
  initSocket_idem_disconnect_safe
    { socket := some { token := "t1", sid := 0 }, nextSid := 1 }
    { token := "t1", sid := 0 } "t2" rfl

/-- Claim C1: an incoming remote update whose originating user id differs
from the local editor's id replaces the local body; an update carrying the
local editor's own id leaves the body unchanged (echo suppression). -/
theorem handleDocumentUpdate_echo_suppression (uid : Nat) (d : UpdateData) (c : String) :
    (d.userId ≠ uid → handleDocumentUpdate (some uid) d c = d.content) ∧
    (d.userId = uid → handleDocumentUpdate (some uid) d c = c) := by
  constructor
  · intro h
    simp [handleDocumentUpdate, h]
  · intro h
    simp [handleDocumentUpdate, h]

/-- Witness for C1: a foreign update (user 2 vs local 1) is applied, the
local echo (user 1 vs local 1) is suppressed. -/
theorem handleDocumentUpdate_echo_suppression_witness :
    handleDocumentUpdate (some 1) { userId := 2, content := "new" } "old" = "new" ∧
    handleDocumentUpdate (some 1) { userId := 1, content := "new" } "old" = "old" :=
  ⟨(handleDocumentUpdate_echo_suppression 1 { userId := 2, content := "new" } "old").1 (by decide),
   (handleDocumentUpdate_echo_suppression 1 { userId := 1, content := "new" } "old").2 rfl⟩

/-- Counterexample to claim C2 as stated: identity "A" is already in the
roster `["A"]`, yet `handleUserJoined` does not leave the roster unchanged —
it appends a duplicate entry. -/
theorem handleUserJoined_not_idempotent :
    "A" ∈ (["A"] : List String) ∧ handleUserJoined "A" ["A"] ≠ ["A"] := by
  constructor
  · simp
  · simp [handleUserJoined]

/-- Claim C2 amended: `handleUserJoined` appends the identity unconditionally,
so a join for an already-present identity does change the roster — it grows
it by exactly one (duplicate) entry rather than being a no-op. -/
theorem handleUserJoined_duplicates (u : String) (prev : List String) (h : u ∈ prev) :
    handleUserJoined u prev ≠ prev ∧
    (handleUserJoined u prev).length = prev.length + 1 ∧
    u ∈ handleUserJoined u prev := by
  refine ⟨?_, ?_, ?_⟩
  · intro he
    have : (handleUserJoined u prev).length = prev.length := by rw [he]
    simp [handleUserJoined] at this
  · simp [handleUserJoined]
  · simp [handleUserJoined]

/-- Witness for the amended C2 at roster `["A"]` and identity "A". -/
theorem handleUserJoined_duplicates_witness :
    handleUserJoined "A" ["A"] ≠ ["A"] ∧
    (handleUserJoined "A" ["A"]).length = (["A"] : List String).length + 1 ∧
    "A" ∈ handleUserJoined "A" ["A"] :=
  handleUserJoined_duplicates "A" ["A"] (by simp)

/-- Claim C6: from any roster, snapshot `{a,b}` then join `c` then leave `b`
yields exactly `[a,c]` (the snapshot fully replaces the roster); and a leave
for an absent identity is a no-op, not an error. -/
theorem roster_snapshot_join_leave (a b c : String) (r0 : List String)
    (hab : a ≠ b) (hbc : b ≠ c) (hac : a ≠ c) :
    handleUserLeft b (handleUserJoined c (handleActiveUsers [a, b] r0)) = [a, c] ∧
    (∀ (u : String) (prev : List String), u ∉ prev → handleUserLeft u prev = prev) := by
  constructor
  · simp [handleActiveUsers, handleUserJoined, handleUserLeft, hab, Ne.symm hbc]
  · intro u prev h
    rw [handleUserLeft, List.filter_eq_self]
    intro x hx
    simp only [ne_eq, decide_eq_true_eq]
    intro he
    exact h (he ▸ hx)

/-- Witness for C6 with identities "A", "B", "C" starting from roster ["Z"],
and a leave of the absent identity "Q" from roster ["A", "C"]. -/
theorem roster_snapshot_join_leave_witness :
    (handleUserLeft "B" (handleUserJoined "C" (handleActiveUsers ["A", "B"] ["Z"])) = ["A", "C"] ∧
      (∀ (u : String) (prev : List String), u ∉ prev → handleUserLeft u prev = prev)) ∧
    handleUserLeft "Q" ["A", "C"] = ["A", "C"] :=
  ⟨roster_snapshot_join_leave "A" "B" "C" ["Z"] (by decide) (by decide) (by decide),
   (roster_snapshot_join_leave "A" "B" "C" ["Z"] (by decide) (by decide) (by decide)).2
     "Q" ["A", "C"] (by decide)⟩

/-- Claim C10: connecting with a second, different auth token while a handle
created with the first token is active returns the existing handle, still
carrying the first token; the module state is untouched, so no
re-authentication happens until an explicit disconnect. -/
theorem initSocket_ignores_new_token (m : SocketModule) (t1 t2 : String)
    (hm : m.socket = none) (hne : t1 ≠ t2) :
    initSocket t2 (initSocket t1 m).2 = ((initSocket t1 m).1, (initSocket t1 m).2) ∧
    (initSocket t1 m).1.token = t1 ∧
    (initSocket t1 m).1.token ≠ t2 := by
  refine ⟨?_, ?_, ?_⟩
  · simp [initSocket, hm]
  · simp [initSocket, hm]
  · simp [initSocket, hm]
    exact hne

/-- Witness for C10 with tokens "alice" and "bob" from the empty module state. -/
theorem initSocket_ignores_new_token_witness :
    initSocket "bob" (initSocket "alice" { socket := none, nextSid := 0 }).2
      = ((initSocket "alice" { socket := none, nextSid := 0 }).1,
         (initSocket "alice" { socket := none, nextSid := 0 }).2) ∧
    (initSocket "alice" { socket := none, nextSid := 0 }).1.token = "alice" ∧
    (initSocket "alice" { socket := none, nextSid := 0 }).1.token ≠ "bob" :=
  initSocket_ignores_new_token { socket := none, nextSid := 0 } "alice" "bob" rfl (by decide)

/-! ### Theorems for the save machine claims -/

/-- Counterexample to claim C3 as stated: there is a reachable state of the
save machine with two persist (`api.put`) operations in flight at once —
edit, timer fires (first put goes out), edit again while the put is still
outstanding, rearmed timer fires (second put goes out). -/
theorem save_two_persists_reachable :
    ¬ ∀ (es : List SaveEv) (st : SaveState),
        saveRun saveInit es = some st → st.inFlight.length ≤ 1 := by
  intro h
  have h2 := h [SaveEv.edit "a", SaveEv.fire, SaveEv.edit "b", SaveEv.fire]
      { content := "b", timer := none, inFlight := ["a", "b"], saving := true,
        emittedSaves := [], refetches := 0, alerts := 0 } rfl
  exact absurd h2 (by decide)

/-- Claim C3 amended: a `notifyEdit` arriving while a persist is outstanding
only rearms the debounce timer — the edit event itself changes nothing but
`content` and `timer`, in particular it starts no persist; but when the
rearmed timer later fires, `handleSave` runs unconditionally, so a state
with two persist operations concurrently in flight is reachable. -/
theorem notifyEdit_rearms_overlap_possible :
    (∀ (st : SaveState) (s : String),
        saveStep st (SaveEv.edit s) = some { st with content := s, timer := some s }) ∧
    (∃ (es : List SaveEv) (st : SaveState),
        saveRun saveInit es = some st ∧ 2 ≤ st.inFlight.length) := by
  constructor
  · intro st s
    rfl
  · exact ⟨[SaveEv.edit "a", SaveEv.fire, SaveEv.edit "b", SaveEv.fire],
      { content := "b", timer := none, inFlight := ["a", "b"], saving := true,
        emittedSaves := [], refetches := 0, alerts := 0 }, rfl, by decide⟩

/-- Claim C4: when the durable write (`api.put`) of a persist fails, the
`save-document` broadcast and the re-fetch are not performed, exactly one
error is surfaced, the local body is unchanged (the optimistic edit is
retained), and no retry is scheduled (the timer is untouched and the set of
in-flight persists only shrinks). -/
theorem persist_failure_aborts (st st' : SaveState)
    (h : saveStep st SaveEv.putErr = some st') :
    st'.content = st.content ∧
    st'.emittedSaves = st.emittedSaves ∧
    st'.refetches = st.refetches ∧
    st'.alerts = st.alerts + 1 ∧
    st'.timer = st.timer ∧
    st'.inFlight = st.inFlight.tail ∧
    st'.saving = false := by
  cases hin : st.inFlight with
  | nil => simp [saveStep, hin] at h
  | cons s rest =>
      simp [saveStep, hin] at h
      subst h
      simp

/-- Witness for C4: a failing persist of body "c" from a state with one
outstanding put. -/
theorem persist_failure_aborts_witness :
    ("c" : String) = "c" ∧
    ([] : List String) = [] ∧
    (0 : Nat) = 0 ∧
    (1 : Nat) = 0 + 1 ∧
    (none : Option String) = none ∧
    ([] : List String) = (["c"] : List String).tail ∧
    false = false :=
  persist_failure_aborts
    { content := "c", timer := none, inFlight := ["c"], saving := true,
      emittedSaves := [], refetches := 0, alerts := 0 }
    { content := "c", timer := none, inFlight := [], saving := false,
      emittedSaves := [], refetches := 0, alerts := 1 }
    rfl

/-- Folding edit events over the state only rewrites `content` and `timer`;
the in-flight persists are untouched. -/
theorem foldl_edits_inFlight (es : List String) (st : SaveState) :
    (es.foldl (fun acc s => { acc with content := s, timer := some s }) st).inFlight
      = st.inFlight := by
  induction es generalizing st with
  | nil => rfl
  | cons a t ih => simpa [List.foldl] using ih { st with content := a, timer := some a }

/-- Running a sequence of edit events always succeeds and equals the fold of
the per-edit state update. -/
theorem saveRun_edits (es : List String) (st : SaveState) :
    saveRun st (es.map SaveEv.edit)
      = some (es.foldl (fun acc s => { acc with content := s, timer := some s }) st) := by
  induction es generalizing st with
  | nil => rfl
  | cons a t ih =>
      simpa [saveRun, saveStep, List.foldl] using ih { st with content := a, timer := some a }

/-- Claim C5: any nonempty sequence of local edits (written as a prefix `es`
followed by the final edit `s`) leaves the machine with the timer armed for
the most recent body `s`, the content equal to `s`, and no persist yet; the
timer firing then issues exactly one persist, carrying exactly `s`. -/
theorem debounce_single_persist (es : List String) (s : String) :
    ∃ st : SaveState,
      saveRun saveInit ((es ++ [s]).map SaveEv.edit) = some st ∧
      st.timer = some s ∧
      st.content = s ∧
      st.inFlight = [] ∧
      saveStep st SaveEv.fire
        = some { st with timer := none, saving := true, inFlight := [s] } := by
  refine ⟨(es ++ [s]).foldl (fun acc t => { acc with content := t, timer := some t }) saveInit,
    saveRun_edits (es ++ [s]) saveInit, ?_, ?_, ?_, ?_⟩
  · rw [List.foldl_append]
    rfl
  · rw [List.foldl_append]
    rfl
  · rw [foldl_edits_inFlight]
    rfl
  · have hf : ((es ++ [s]).foldl
        (fun acc t => { acc with content := t, timer := some t }) saveInit).inFlight = [] :=
      foldl_edits_inFlight (es ++ [s]) saveInit
    rw [List.foldl_append]
    simp [saveStep]
    rw [List.foldl_append] at hf
    simp at hf
    simp [hf]

/-! ### Theorems for the fetch and cleanup claims -/

/-- Claim C9: when the initial document fetch fails, the error message is
surfaced via an alert and the user is redirected to `/documents`, which
unmounts the editor (running the cleanup of `sessionCleanup_spec`); no
document state is populated for the session. -/
theorem fetch_failure_redirects (st : FetchState) (msg : String) :
    (fetchDocument (Except.error msg) st).navTarget = some "/documents" ∧
    (fetchDocument (Except.error msg) st).alerts = st.alerts ++ [msg] ∧
    (fetchDocument (Except.error msg) st).document = st.document ∧
    (fetchDocument (Except.error msg) st).content = st.content ∧
    (fetchDocument (Except.error msg) st).loading = st.loading :=
  ⟨rfl, rfl, rfl, rfl, rfl⟩

/-- Folding `socket.off` calls never emits anything. -/
theorem socketOff_fold_emitted (L : List (String × Nat)) (c : ChannelState) :
    (L.foldl (fun acc p => socketOff p.1 p.2 acc) c).emitted = c.emitted := by
  induction L generalizing c with
  | nil => rfl
  | cons p t ih => simpa [List.foldl, socketOff] using ih (socketOff p.1 p.2 c)

/-- Folding `socket.off` calls never touches the connection. -/
theorem socketOff_fold_connected (L : List (String × Nat)) (c : ChannelState) :
    (L.foldl (fun acc p => socketOff p.1 p.2 acc) c).connected = c.connected := by
  induction L generalizing c with
  | nil => rfl
  | cons p t ih => simpa [List.foldl, socketOff] using ih (socketOff p.1 p.2 c)

/-- `socket.off` folds only remove listeners, so an absent listener stays
absent. -/
theorem socketOff_fold_pres_not_mem (x : String × Nat) (L : List (String × Nat))
    (c : ChannelState) (h : x ∉ c.handlers) :
    x ∉ (L.foldl (fun acc p => socketOff p.1 p.2 acc) c).handlers := by
  induction L generalizing c with
  | nil => exact h
  | cons p t ih =>
      refine ih (socketOff p.1 p.2 c) ?_
      intro hmem
      exact h (List.mem_filter.mp hmem).1

/-- Every listener in the list is unregistered after folding `socket.off`
over the list. -/
theorem socketOff_fold_removes (L : List (String × Nat)) (c : ChannelState) :
    ∀ x ∈ L, x ∉ (L.foldl (fun acc p => socketOff p.1 p.2 acc) c).handlers := by
  induction L generalizing c with
  | nil => intro x hx; cases hx
  | cons p t ih =>
      intro x hx
      rcases List.mem_cons.mp hx with rfl | hx'
      · refine socketOff_fold_pres_not_mem x t (socketOff x.1 x.2 c) ?_
        intro hmem
        have hne := (List.mem_filter.mp hmem).2
        simp at hne
      · exact ih (socketOff p.1 p.2 c) x hx'

/-- Claim C8: closing a session (the effect cleanup) leaves the underlying
connection untouched, emits exactly one `leave-document` notification for
the document, and unregisters every one of the six handlers the session had
registered. -/
theorem sessionCleanup_spec (docId : String) (c : ChannelState) :
    (sessionCleanup docId c).connected = c.connected ∧
    (sessionCleanup docId c).emitted = c.emitted ++ [("leave-document", docId)] ∧
    ∀ p ∈ sessionHandlers, p ∉ (sessionCleanup docId c).handlers := by
  refine ⟨?_, ?_, ?_⟩
  · rw [sessionCleanup, socketOff_fold_connected]
    rfl
  · rw [sessionCleanup, socketOff_fold_emitted]
    rfl
  · intro p hp
    exact socketOff_fold_removes sessionHandlers _ p hp

/-- Witness for C8: cleanup of document "7" on a channel where the editor's
`document-update` listener is registered. -/
theorem sessionCleanup_spec_witness :
    (sessionCleanup "7"
        { handlers := [("document-update", 0)], emitted := [], connected := true }).connected
      = true ∧
    ("document-update", 0) ∉
      (sessionCleanup "7"
        { handlers := [("document-update", 0)], emitted := [], connected := true }).handlers :=
  ⟨(sessionCleanup_spec "7"
      { handlers := [("document-update", 0)], emitted := [], connected := true }).1,
   (sessionCleanup_spec "7"
      { handlers := [("document-update", 0)], emitted := [], connected := true }).2.2
     ("document-update", 0) (by decide)⟩

end DocCollab
